import Mathlib

/-!
Shallow embedding of the Effect AI manager node (`createManager` /
`createManagerEntity` and their message handlers and HTTP routes).

Pure data flow is translated directly from the TypeScript source.  External
collaborators (the eddsa/base58/Groth16 primitives, the payment manager, the
worker store lookup and the JSON parser) are passed in as explicit function
parameters, so every theorem quantifies over their behaviour.  JavaScript
`undefined` values become `Option`, thrown exceptions become `Except` errors,
and JS truthiness of strings (`""` is falsy) is made explicit where the source
relies on it.
-/

namespace EffectManager

/-- The `Partial<ManagerSettings>` argument of `createManager`: every field may
be absent (`undefined`). -/
structure SettingsInput where
  port : Option Nat
  autoManage : Option Bool
  listen : Option (List String)
  announce : Option (List String)
  paymentBatchSize : Option Nat
  requireAccessCodes : Option Bool
  paymentAccount : Option String
  withAdmin : Option Bool
deriving Repr, DecidableEq

/-- The merged `ManagerSettings` record built at the top of `createManager`. -/
structure ManagerSettings where
  port : Nat
  autoManage : Bool
  listen : List String
  announce : List String
  paymentBatchSize : Nat
  requireAccessCodes : Bool
  paymentAccount : Option String
  withAdmin : Bool
deriving Repr, DecidableEq

/-- JavaScript template-literal interpolation of a possibly-`undefined`
number: `${settings.port}` prints the digits when present and the literal
string `undefined` otherwise. -/
def jsInterpolateNat : Option Nat → String
  | some n => toString n
  | none => "undefined"

/-- The settings merge in `createManager` (source lines 122-131).  Note that
the `listen` default interpolates the raw `settings.port`, not the merged
port with its 19955 fallback. -/
def mergeManagerSettings (PAYMENT_BATCH_SIZE : Nat) (s : SettingsInput) :
    ManagerSettings :=
  { port := s.port.getD 19955
    autoManage := s.autoManage.getD true
    listen := s.listen.getD
      ["/ip4/0.0.0.0/tcp/" ++ jsInterpolateNat s.port ++ "/ws"]
    announce := s.announce.getD []
    paymentBatchSize := s.paymentBatchSize.getD PAYMENT_BATCH_SIZE
    requireAccessCodes := s.requireAccessCodes.getD true
    paymentAccount := s.paymentAccount
    withAdmin := s.withAdmin.getD true }

/-- A `SettingsInput` with every field absent. -/
def emptySettingsInput : SettingsInput :=
  { port := none, autoManage := none, listen := none, announce := none
    paymentBatchSize := none, requireAccessCodes := none
    paymentAccount := none, withAdmin := none }

/-- The transport configuration assembled inside `createManagerEntity`
(source lines 90-108): an `HttpTransport` with the literal port 8889 and a
`Libp2pTransport` with the given listen and announce addresses
(`announce || []`). -/
structure ManagerEntityTransports where
  httpPort : Nat
  libp2pListen : List String
  libp2pAnnounce : List String
deriving Repr, DecidableEq

/-- `createManagerEntity` (transport part): the HTTP port is the literal
8889; listen is passed through; a missing announce list becomes `[]`. -/
def createManagerEntityTransports (listen : List String)
    (announce : Option (List String)) : ManagerEntityTransports :=
  { httpPort := 8889
    libp2pListen := listen
    libp2pAnnounce := announce.getD [] }

/-- `createManager` builds its entity from the merged settings
(source lines 148-153). -/
def managerTransports (PAYMENT_BATCH_SIZE : Nat) (s : SettingsInput) :
    ManagerEntityTransports :=
  let ms := mergeManagerSettings PAYMENT_BATCH_SIZE s
  createManagerEntityTransports ms.listen (some ms.announce)

/-- The cryptographic primitives used by `createManager` for key derivation
(`buildEddsa`, `bigIntToBytes32`, `compressBabyJubJubPubKey`, the Solana
`PublicKey.toBase58`).  They are external library calls; theorems quantify
over them.  `prv2pub` already folds in `eddsa.F.toObject` on each
coordinate. -/
structure CryptoPrims where
  prv2pub : List Nat → Nat × Nat
  bigIntToBytes32 : Nat → List Nat
  compressBabyJubJubPubKey : List Nat → List Nat → List Nat
  pubkeyToBase58 : List Nat → String

/-- Key derivation in `createManager` (source lines 137-145): the eddsa
public key is computed from the first 32 bytes of the raw private key
(`privateKey.raw.slice(0, 32)`), compressed coordinate-wise, and rendered
as a base58 Solana public key. -/
def derivePubkeyB58 (c : CryptoPrims) (privateKeyRaw : List Nat) : String :=
  let pk := c.prv2pub (privateKeyRaw.take 32)
  c.pubkeyToBase58
    (c.compressBabyJubJubPubKey (c.bigIntToBytes32 pk.1)
      (c.bigIntToBytes32 pk.2))

/-- A worker record as read back by `workerManager.getWorker`; only the
fields the handlers in this file touch are kept.  `recipient` is `Option`
because the stored field may be absent. -/
structure WorkerState where
  recipient : Option String
deriving Repr, DecidableEq

/-- Wrapper matching the store's `{ state : ... }` shape. -/
structure WorkerRecord where
  state : WorkerState
deriving Repr, DecidableEq

/-- The `identifyResponse` message body (source lines 202-213). -/
structure IdentifyResponse where
  peer : List Nat
  pubkey : String
  batchSize : Nat
  taskTimeout : Nat
  version : String
  requiresRegistration : Bool
  isRegistered : Bool
  isConnected : Bool
deriving Repr, DecidableEq

/-- The `identifyRequest` handler (source lines 189-216).  `getWorkerFn`
stands for `workerManager.getWorker`, `queue` for
`workerManager.workerQueue.queue`, `nodePublicKeyRaw` for
`entity.node.peerId.publicKey` (absent ⇒ the handler throws). -/
def identifyHandler (PAYMENT_BATCH_SIZE TASK_ACCEPTANCE_TIME : Nat)
    (PROTOCOL_VERSION : String) (managerSettings : ManagerSettings)
    (solanaPubkeyB58 : String) (nodePublicKeyRaw : Option (List Nat))
    (getWorkerFn : String → Option WorkerRecord) (queue : List String)
    (senderPeerId : String) : Except String IdentifyResponse :=
  let worker := getWorkerFn senderPeerId
  let isConnected := queue.contains senderPeerId
  match nodePublicKeyRaw with
  | none => .error "Peer ID is not set"
  | some raw =>
    .ok { peer := raw
          pubkey := solanaPubkeyB58
          batchSize := PAYMENT_BATCH_SIZE
          taskTimeout := TASK_ACCEPTANCE_TIME
          version := PROTOCOL_VERSION
          requiresRegistration := managerSettings.requireAccessCodes
          isRegistered := worker.isSome
          isConnected := isConnected }

/-- The identify pipeline of a running manager: settings merged, signing key
derived from the private key, then the `identifyRequest` handler. -/
def managerIdentify (PAYMENT_BATCH_SIZE TASK_ACCEPTANCE_TIME : Nat)
    (PROTOCOL_VERSION : String) (c : CryptoPrims) (privateKeyRaw : List Nat)
    (s : SettingsInput) (nodePublicKeyRaw : Option (List Nat))
    (getWorkerFn : String → Option WorkerRecord) (queue : List String)
    (senderPeerId : String) : Except String IdentifyResponse :=
  identifyHandler PAYMENT_BATCH_SIZE TASK_ACCEPTANCE_TIME PROTOCOL_VERSION
    (mergeManagerSettings PAYMENT_BATCH_SIZE s)
    (derivePubkeyB58 c privateKeyRaw) nodePublicKeyRaw getWorkerFn queue
    senderPeerId

/-- One element of `proofRequest.payments`; `recipient` is a base58 string.
Other payment fields are opaque to the handler and kept as a blob. -/
structure ProofPayment where
  recipient : String
  rest : String
deriving Repr, DecidableEq

/-- The `proofRequest` handler (source lines 262-277), over an abstract
ledger state `σ` and authorization type `α`.  `bs58decode` stands for
`bs58.decode`, `process` for `paymentManager.processProofRequest` (a missing
module, so it is an arbitrary state transformer).  The handler throws
before touching the ledger unless the transport-verified sender public key
bytes equal the decoded `payments[0].recipient`; on a thrown error the
ledger state is returned unchanged.  An empty `payments` array makes the
JS expression `payments[0].recipient` throw a TypeError. -/
def proofRequestHandler {σ α : Type} (bs58decode : String → List Nat)
    (process : σ → List ProofPayment → σ × Except String α) (st : σ)
    (senderPublicKeyRaw : Option (List Nat)) (payments : List ProofPayment) :
    σ × Except String α :=
  match payments with
  | [] => (st, .error "TypeError: payments[0] is undefined")
  | p :: _ =>
    match senderPublicKeyRaw with
    | none => (st, .error "Peer ID public key is not set")
    | some raw =>
      if raw = bs58decode p.recipient then process st payments
      else (st, .error "Forbidden")

/-- The `signals` object of one bulk proof. -/
structure ProofSignals where
  minNonce : Nat
  maxNonce : Nat
  amount : Nat
  recipient : String
deriving Repr, DecidableEq

/-- One element of `bulkProofRequest.proofs`: an opaque proof blob plus
optional signals. -/
structure BulkProof where
  proofBlob : String
  signals : Option ProofSignals
deriving Repr, DecidableEq

/-- The argument record the handler passes to
`paymentManager.bulkPaymentProofs`: the recipient taken from the worker
record, the manager public key coordinates, and per-proof
`(groth16 proof, publicSignals)` pairs. -/
structure BulkCall where
  recipient : String
  r8x : Nat
  r8y : Nat
  proofs : List (String × List String)
deriving Repr, DecidableEq

/-- Public signals assembled for one proof (source lines 297-302):
`[minNonce, maxNonce, amount, recipient]`, numbers stringified. -/
def bulkPublicSignals (sig : ProofSignals) : List String :=
  [toString sig.minNonce, toString sig.maxNonce, toString sig.amount,
    sig.recipient]

/-- The `bulkProofRequest` handler (source lines 278-305).  `toGroth16`
stands for `proofResponseToGroth16Proof`.  The worker's stored recipient is
looked up; a missing worker, a missing/empty recipient (JS falsiness of
`""`), or any proof without signals is an error thrown before the payment
manager is called.  On success the call record carries the worker-record
recipient, never one named in the request. -/
def bulkProofRequestHandler (toGroth16 : BulkProof → String)
    (getWorkerFn : String → Option WorkerRecord) (pubX pubY : Nat)
    (senderPeerId : String) (proofs : List BulkProof) :
    Except String BulkCall :=
  let worker := getWorkerFn senderPeerId
  match worker.bind (fun w => w.state.recipient) with
  | none => .error "Worker not found or recipient not set"
  | some r =>
    if r = "" then .error "Worker not found or recipient not set"
    else if proofs.all (fun p => p.signals.isSome) then
      .ok { recipient := r
            r8x := pubX
            r8y := pubY
            proofs := proofs.map (fun p =>
              (toGroth16 p,
                bulkPublicSignals
                  (p.signals.getD ⟨0, 0, 0, ""⟩))) }
    else .error "All proofs must have signals for bulk payment"

/-- A stored template record: `state` modelled as a field map, so that the
JS object spread `{ ...record?.state }` of a missing record is the empty
map. -/
structure TemplateRecord where
  state : List (String × String)
deriving Repr, DecidableEq

/-- The `templateRequest` handler (source lines 315-321): look the template
up and answer `templateResponse: { ...record?.state }`.  A missing record
yields the empty object, never a thrown NotFound. -/
def templateRequestHandler (templateGet : String → Option TemplateRecord)
    (templateId : String) : Except String (List (String × String)) :=
  .ok (((templateGet templateId).map (fun r => r.state)).getD [])

/-- A value thrown by JavaScript code: either an `Error` instance with a
message, or some non-`Error` value (a string, a number, ...). -/
inductive JsThrown where
  | jsError (message : String)
  | nonError
deriving Repr, DecidableEq

/-- The outcome of the `POST /task` route for the HTTP client, over an
opaque task body type `τ`.  `success` is the default HTTP 200 with
`res.json({status, task})`; `failure` is `res.status(n).json({status,
error})`; `noResponse` records that the handler returned without sending
any response. -/
inductive PostTaskResponse (τ : Type) where
  | success (status : String) (task : τ)
  | failure (httpStatus : Nat) (status : String) (error : String)
  | noResponse
deriving Repr, DecidableEq

/-- The `POST /task` route (source lines 324-341).  `createTask` stands for
`taskManager.createTask` (a missing module, so an arbitrary fallible
function).  The catch block answers 500 only when the thrown value is an
`Error` instance (`e instanceof Error`); otherwise no response is sent. -/
def postTaskRoute {τ : Type} (createTask : τ → Except JsThrown Unit)
    (task : τ) : PostTaskResponse τ :=
  match createTask task with
  | .ok _ => .success "Task received" task
  | .error (.jsError msg) => .failure 500 "Error creating task" msg
  | .error .nonError => .noResponse

/-- One entry of a task's `events[]` array; `result` is the string-keyed
`.result` field a submission event may carry. -/
structure TaskEvent where
  type : String
  result : Option String
deriving Repr, DecidableEq

/-- The task fields the `GET /tasks/:templateid` route reads. -/
structure TaskState where
  id : String
  templateId : String
  title : String
deriving Repr, DecidableEq

/-- A stored task record: state plus its event log. -/
structure ManagerTaskRecord where
  state : TaskState
  events : List TaskEvent
deriving Repr, DecidableEq

/-- One entry of the `GET /tasks/:templateid` response, over an abstract
parsed-JSON type `J`; `result = none` is the JSON `null`. -/
structure TaskListEntry (J : Type) where
  taskId : String
  templateId : String
  title : String
  result : Option J
deriving Repr, DecidableEq

/-- The `result` field computed per task (source lines 353-359):
`task.events.find(e => e.type === "submission")` takes the FIRST submission
event, and the conditional `submissionEvent?.result ? JSON.parse(...) :
null` yields `null` when the event is missing, when its `result` field is
absent, and when it is the falsy empty string. -/
def taskEntryResult {J : Type} (jsonParse : String → J)
    (events : List TaskEvent) : Option J :=
  match events.find? (fun e => e.type = "submission") with
  | none => none
  | some e =>
    match e.result with
    | none => none
    | some r => if r = "" then none else some (jsonParse r)

/-- The `GET /tasks/:templateid` route (source lines 343-366):
`completedTasks` is what `taskManager.getCompletedTasks({offset: 0, limit:
10000})` returned; tasks are filtered by template id and mapped to list
entries.  `jsonParse` stands for `JSON.parse`. -/
def tasksByTemplateRoute {J : Type} (jsonParse : String → J)
    (completedTasks : List ManagerTaskRecord) (templateid : String) :
    List (TaskListEntry J) :=
  (completedTasks.filter (fun t => t.state.templateId = templateid)).map
    (fun t =>
      { taskId := t.state.id
        templateId := t.state.templateId
        title := t.state.title
        result := taskEntryResult jsonParse t.events })

/-! Theorems -/

/-- C1: for every inbound proofRequest message, a signed authorization is
produced only if the raw public key of the transport-verified sender peer
equals the base58-decoded `payments[0].recipient`; when they differ the
request fails with Forbidden and the ledger state is unchanged. -/
theorem proofRequest_forbidden_unless_sender_is_recipient {σ α : Type}
    (bs58decode : String → List Nat)
    (process : σ → List ProofPayment → σ × Except String α) (st : σ)
    (senderKey : Option (List Nat)) (payments : List ProofPayment) :
    (∀ st2 auth,
        proofRequestHandler bs58decode process st senderKey payments
          = (st2, .ok auth) →
        ∃ p rest, payments = p :: rest ∧
          senderKey = some (bs58decode p.recipient)) ∧
    (∀ p rest raw, payments = p :: rest → senderKey = some raw →
        raw ≠ bs58decode p.recipient →
        proofRequestHandler bs58decode process st senderKey payments
          = (st, .error "Forbidden")) := by
  constructor
  · intro st2 auth h
    cases payments with
    | nil => simp [proofRequestHandler] at h
    | cons p rest =>
      cases senderKey with
      | none => simp [proofRequestHandler] at h
      | some raw =>
        by_cases hr : raw = bs58decode p.recipient
        · exact ⟨p, rest, rfl, by rw [hr]⟩
        · simp [proofRequestHandler, hr] at h
  · rintro p rest raw rfl rfl hne
    simp [proofRequestHandler, hne]

/-- Witness for C1 at a concrete input: sender key `[2]`, decoded recipient
`[1]`, concrete one-payment request. -/
theorem proofRequest_forbidden_witness :
    proofRequestHandler (fun _ => [1])
        (fun (st : Nat) (_ : List ProofPayment) =>
          (st, (Except.ok 0 : Except String Nat)))
        0 (some [2]) [⟨"r", ""⟩]
      = (0, Except.error "Forbidden") :=
  (proofRequest_forbidden_unless_sender_is_recipient (fun _ => [1])
      (fun (st : Nat) (_ : List ProofPayment) =>
        (st, (Except.ok 0 : Except String Nat)))
      0 (some [2]) [⟨"r", ""⟩]).2 ⟨"r", ""⟩ [] [2] rfl rfl (by decide)

/-- C2 (failing input): with both `port` and `listen` absent the merged
port is 19955 but the default listen address interpolates the raw,
undefined `settings.port`, yielding a literal `undefined` in the multiaddr
instead of the merged port. -/
theorem mergeSettings_listen_default_uses_raw_port :
    (mergeManagerSettings 100 emptySettingsInput).port = 19955 ∧
    (mergeManagerSettings 100 emptySettingsInput).listen
      = ["/ip4/0.0.0.0/tcp/undefined/ws"] ∧
    (mergeManagerSettings 100 emptySettingsInput).listen
      ≠ ["/ip4/0.0.0.0/tcp/19955/ws"] := by
  refine ⟨rfl, rfl, ?_⟩
  decide

/-- C7 counterexample: no settings input makes the HTTP transport port
differ from 8889, refuting the claimed configurability. -/
theorem managerHttpPort_not_configurable :
    ¬ ∃ (pbs : Nat) (s : SettingsInput),
        (managerTransports pbs s).httpPort ≠ 8889 := by
  rintro ⟨pbs, s, h⟩
  exact h rfl

/-- C7 (amended): the manager's HTTP transport always listens on the fixed
port 8889, for every settings input and for every direct entity creation. -/
theorem managerHttpPort_always_8889 (pbs : Nat) (s : SettingsInput)
    (listen : List String) (announce : Option (List String)) :
    (managerTransports pbs s).httpPort = 8889 ∧
    (createManagerEntityTransports listen announce).httpPort = 8889 :=
  ⟨rfl, rfl⟩

/-- C10: a templateRequest naming a templateId with no stored template gets
a templateResponse whose payload is the empty object, not a NotFound error;
a stored template gets that template's state. -/
theorem templateRequest_empty_object_when_missing
    (tg : String → Option TemplateRecord) (tid : String) :
    (tg tid = none → templateRequestHandler tg tid = .ok []) ∧
    (∀ rec, tg tid = some rec →
        templateRequestHandler tg tid = .ok rec.state) := by
  constructor
  · intro h
    simp [templateRequestHandler, h]
  · intro rec h
    simp [templateRequestHandler, h]

/-- Witness for C10: an empty store answers the empty object. -/
theorem templateRequest_empty_object_witness :
    templateRequestHandler (fun _ => none) "tpl9" = .ok [] :=
  (templateRequest_empty_object_when_missing (fun _ => none) "tpl9").1 rfl

/-- Whether a `POST /task` outcome is an HTTP 500 response. -/
def isHttp500 {τ : Type} : PostTaskResponse τ → Bool
  | .failure 500 _ _ => true
  | _ => false

/-- C6 counterexample: when `createTask` throws a non-`Error` value the
route sends no response at all, so a thrown value exists for which the
response is not a 500. -/
theorem postTask_nonError_throw_counterexample :
    postTaskRoute (fun _ : Unit => Except.error JsThrown.nonError) ()
        = PostTaskResponse.noResponse ∧
    isHttp500
        (postTaskRoute (fun _ : Unit => Except.error JsThrown.nonError) ())
      = false :=
  ⟨rfl, rfl⟩

/-- C6 (amended): a successful createTask yields the 200 body
`{status: "Task received", task}`; a thrown `Error` instance yields a 500
with a status field and the error message; a thrown non-`Error` value
yields no response. -/
theorem postTask_route_responses {τ : Type}
    (createTask : τ → Except JsThrown Unit) (task : τ) :
    (∀ u, createTask task = .ok u →
        postTaskRoute createTask task = .success "Task received" task) ∧
    (∀ msg, createTask task = .error (.jsError msg) →
        postTaskRoute createTask task
          = .failure 500 "Error creating task" msg) ∧
    (createTask task = .error .nonError →
        postTaskRoute createTask task = .noResponse) := by
  refine ⟨?_, ?_, ?_⟩
  · intro u h
    simp [postTaskRoute, h]
  · intro msg h
    simp [postTaskRoute, h]
  · intro h
    simp [postTaskRoute, h]

/-- Witness for C6 (amended): a thrown `Error` with message `boom` yields
the 500 body. -/
theorem postTask_route_responses_witness :
    postTaskRoute (fun _ : Unit => Except.error (JsThrown.jsError "boom")) ()
      = PostTaskResponse.failure 500 "Error creating task" "boom" :=
  (postTask_route_responses
      (fun _ : Unit => Except.error (JsThrown.jsError "boom")) ()).2.1
    "boom" rfl

/-- C9: the bulkProofRequest handler errors when the sender has no worker
record or its record has no recipient, errors when any proof lacks
signals, and on success forwards exactly the worker-record recipient to
the payment ledger. -/
theorem bulkProof_recipient_from_worker_record (toG : BulkProof → String)
    (gw : String → Option WorkerRecord) (x y : Nat) (peer : String)
    (proofs : List BulkProof) :
    (gw peer = none →
        bulkProofRequestHandler toG gw x y peer proofs
          = .error "Worker not found or recipient not set") ∧
    (∀ w, gw peer = some w → w.state.recipient = none →
        bulkProofRequestHandler toG gw x y peer proofs
          = .error "Worker not found or recipient not set") ∧
    (∀ w r, gw peer = some w → w.state.recipient = some r → r ≠ "" →
        (∃ p ∈ proofs, p.signals = none) →
        bulkProofRequestHandler toG gw x y peer proofs
          = .error "All proofs must have signals for bulk payment") ∧
    (∀ call, bulkProofRequestHandler toG gw x y peer proofs = .ok call →
        ∃ w, gw peer = some w ∧ w.state.recipient = some call.recipient) := by
  refine ⟨?_, ?_, ?_, ?_⟩
  · intro h
    simp [bulkProofRequestHandler, h]
  · intro w hw hr
    simp [bulkProofRequestHandler, hw, hr]
  · intro w r hw hr hne hmissing
    have hall : proofs.all (fun p => p.signals.isSome) = false := by
      obtain ⟨p, hp, hnone⟩ := hmissing
      by_contra hcontra
      have : proofs.all (fun p => p.signals.isSome) = true := by
        cases hx : proofs.all (fun p => p.signals.isSome) with
        | true => rfl
        | false => exact absurd hx hcontra
      have := (List.all_eq_true.mp this) p hp
      rw [hnone] at this
      simp at this
    simp [bulkProofRequestHandler, hw, hr, hne, hall]
  · intro call h
    rcases hg : gw peer with _ | w
    · simp [bulkProofRequestHandler, hg] at h
    · rcases hrec : w.state.recipient with _ | r
      · simp [bulkProofRequestHandler, hg, hrec] at h
      · by_cases hre : r = ""
        · simp [bulkProofRequestHandler, hg, hrec, hre] at h
        · by_cases hall : proofs.all (fun p => p.signals.isSome) = true
          · have hcall : call
                = { recipient := r, r8x := x, r8y := y
                    proofs := proofs.map (fun p =>
                      (toG p,
                        bulkPublicSignals (p.signals.getD ⟨0, 0, 0, ""⟩))) } := by
              have hcomp : bulkProofRequestHandler toG gw x y peer proofs
                  = .ok { recipient := r, r8x := x, r8y := y
                          proofs := proofs.map (fun p =>
                            (toG p,
                              bulkPublicSignals
                                (p.signals.getD ⟨0, 0, 0, ""⟩))) } := by
                simp [bulkProofRequestHandler, hg, hrec, hre, hall]
              rw [hcomp] at h
              exact (Except.ok.inj h).symm
            refine ⟨w, rfl, ?_⟩
            rw [hrec, hcall]
          · simp [bulkProofRequestHandler, hg, hrec, hre, hall] at h

/-- Worker lookup fixture: every peer resolves to a record whose stored
recipient is `R`. -/
def gwTest : String → Option WorkerRecord := fun _ => some ⟨⟨some "R"⟩⟩

/-- The concrete call forwarded to the payment ledger in the C9 witness. -/
def bulkCall0 : BulkCall :=
  { recipient := "R"
    r8x := 3
    r8y := 4
    proofs := [("blob", ["0", "1", "5", "payloadR"])] }

/-- Witness for C9: a one-proof request from a registered worker succeeds
and the forwarded recipient is the stored `R`, not the payload's
`payloadR`. -/
theorem bulkProof_recipient_witness :
    ∃ w, gwTest "p" = some w ∧ w.state.recipient = some bulkCall0.recipient :=
  (bulkProof_recipient_from_worker_record (fun p => p.proofBlob) gwTest 3 4
      "p" [⟨"blob", some ⟨0, 1, 5, "payloadR"⟩⟩]).2.2.2 bulkCall0 rfl

/-- C4: the pubkey field of every identifyResponse is the base58 rendering
of the compressed public key derived from the first 32 bytes of the
configured private key, and it is identical across all requests (the
derivation happens once at startup, not per request). -/
theorem identify_pubkey_from_first32_of_private_key
    (PBS TAT : Nat) (VER : String) (c : CryptoPrims) (priv : List Nat)
    (s1 s2 : SettingsInput) (np1 np2 : Option (List Nat))
    (gw1 gw2 : String → Option WorkerRecord) (q1 q2 : List String)
    (peer1 peer2 : String) (r1 r2 : IdentifyResponse)
    (h1 : managerIdentify PBS TAT VER c priv s1 np1 gw1 q1 peer1 = .ok r1)
    (h2 : managerIdentify PBS TAT VER c priv s2 np2 gw2 q2 peer2 = .ok r2) :
    r1.pubkey = c.pubkeyToBase58
        (c.compressBabyJubJubPubKey
          (c.bigIntToBytes32 (c.prv2pub (priv.take 32)).1)
          (c.bigIntToBytes32 (c.prv2pub (priv.take 32)).2)) ∧
    r1.pubkey = r2.pubkey := by
  have key : ∀ (s : SettingsInput) (np : Option (List Nat))
      (gw : String → Option WorkerRecord) (q : List String) (peer : String)
      (r : IdentifyResponse),
      managerIdentify PBS TAT VER c priv s np gw q peer = .ok r →
      r.pubkey = derivePubkeyB58 c priv := by
    intro s np gw q peer r h
    cases np with
    | none => simp [managerIdentify, identifyHandler] at h
    | some raw =>
      simp [managerIdentify, identifyHandler] at h
      rw [← h]
  refine ⟨?_, ?_⟩
  · rw [key s1 np1 gw1 q1 peer1 r1 h1]
    rfl
  · rw [key s1 np1 gw1 q1 peer1 r1 h1, key s2 np2 gw2 q2 peer2 r2 h2]

/-- Concrete crypto primitives used by the identify witnesses. -/
def cryptoTest : CryptoPrims :=
  { prv2pub := fun l => (l.length, 7)
    bigIntToBytes32 := fun n => [n]
    compressBabyJubJubPubKey := fun a b => a ++ b
    pubkeyToBase58 := fun l => toString l }

/-- The concrete identify response used by the C4 witness. -/
def idResp0 : IdentifyResponse :=
  { peer := [9]
    pubkey := toString [2, 7]
    batchSize := 100
    taskTimeout := 60
    version := "v1"
    requiresRegistration := true
    isRegistered := false
    isConnected := false }

/-- Witness for C4 at a concrete private key of two bytes. -/
theorem identify_pubkey_witness :
    idResp0.pubkey = cryptoTest.pubkeyToBase58
        (cryptoTest.compressBabyJubJubPubKey
          (cryptoTest.bigIntToBytes32 (cryptoTest.prv2pub ([1, 2].take 32)).1)
          (cryptoTest.bigIntToBytes32
            (cryptoTest.prv2pub ([1, 2].take 32)).2)) ∧
    idResp0.pubkey = idResp0.pubkey :=
  identify_pubkey_from_first32_of_private_key 100 60 "v1" cryptoTest [1, 2]
    emptySettingsInput emptySettingsInput (some [9]) (some [9])
    (fun _ => none) (fun _ => none) [] [] "p" "p" idResp0 idResp0 rfl rfl

/-- C5: every successful identifyResponse carries the node's raw public key
as identity, the protocol version, the configured requireAccessCodes flag,
and an isRegistered flag true exactly when a worker record exists for the
sender's peerId. -/
theorem identify_response_fields (PBS TAT : Nat) (VER : String)
    (c : CryptoPrims) (priv : List Nat) (s : SettingsInput)
    (np : Option (List Nat)) (gw : String → Option WorkerRecord)
    (q : List String) (peer : String) (r : IdentifyResponse)
    (h : managerIdentify PBS TAT VER c priv s np gw q peer = .ok r) :
    np = some r.peer ∧
    r.version = VER ∧
    r.requiresRegistration = s.requireAccessCodes.getD true ∧
    (r.isRegistered = true ↔ (gw peer).isSome = true) := by
  cases np with
  | none => simp [managerIdentify, identifyHandler] at h
  | some raw =>
    simp [managerIdentify, identifyHandler] at h
    rw [← h]
    refine ⟨rfl, rfl, rfl, Iff.rfl⟩

/-- The concrete identify response used by the C5 witness: the sender is a
registered worker and access codes were disabled in settings. -/
def idResp1 : IdentifyResponse :=
  { peer := [4]
    pubkey := toString [1, 7]
    batchSize := 100
    taskTimeout := 60
    version := "v1"
    requiresRegistration := false
    isRegistered := true
    isConnected := false }

/-- Settings input disabling access codes, used by the C5 witness. -/
def settingsNoCodes : SettingsInput :=
  { emptySettingsInput with requireAccessCodes := some false }

/-- Witness for C5: registered sender, access codes disabled. -/
theorem identify_response_fields_witness :
    some [4] = some idResp1.peer ∧
    idResp1.version = "v1" ∧
    idResp1.requiresRegistration = settingsNoCodes.requireAccessCodes.getD true ∧
    (idResp1.isRegistered = true ↔
      ((fun _ => some (⟨⟨some "R"⟩⟩ : WorkerRecord)) "w").isSome = true) :=
  identify_response_fields 100 60 "v1" cryptoTest [1] settingsNoCodes
    (some [4]) (fun _ => some ⟨⟨some "R"⟩⟩) [] "w" idResp1 rfl

/-- C8: the batchSize field of every identifyResponse is the compile-time
constant PAYMENT_BATCH_SIZE, while the configured paymentBatchSize is
merged into managerSettings but never reaches the identify handler. -/
theorem identify_batchSize_is_compile_time_constant
    (PBS TAT : Nat) (VER : String) (c : CryptoPrims) (priv : List Nat)
    (s : SettingsInput) (np : Option (List Nat))
    (gw : String → Option WorkerRecord) (q : List String) (peer : String)
    (r : IdentifyResponse)
    (h : managerIdentify PBS TAT VER c priv s np gw q peer = .ok r) :
    r.batchSize = PBS ∧
    (mergeManagerSettings PBS s).paymentBatchSize
      = s.paymentBatchSize.getD PBS := by
  refine ⟨?_, rfl⟩
  cases np with
  | none => simp [managerIdentify, identifyHandler] at h
  | some raw =>
    simp [managerIdentify, identifyHandler] at h
    rw [← h]

/-- Settings input configuring paymentBatchSize 7, used by the C8
witness. -/
def settingsBatch7 : SettingsInput :=
  { emptySettingsInput with paymentBatchSize := some 7 }

/-- The concrete identify response used by the C8 witness: the constant 100
wins over the configured 7. -/
def idResp2 : IdentifyResponse :=
  { peer := [4]
    pubkey := toString [1, 7]
    batchSize := 100
    taskTimeout := 60
    version := "v1"
    requiresRegistration := true
    isRegistered := false
    isConnected := false }

/-- Witness for C8: paymentBatchSize configured as 7, constant 100; the
response still advertises 100 while the merged settings store 7. -/
theorem identify_batchSize_witness :
    idResp2.batchSize = 100 ∧
    (mergeManagerSettings 100 settingsBatch7).paymentBatchSize
      = settingsBatch7.paymentBatchSize.getD 100 :=
  identify_batchSize_is_compile_time_constant 100 60 "v1" cryptoTest [1]
    settingsBatch7 (some [4]) (fun _ => none) [] "w" idResp2 rfl

/-- The result field as the spec words it, for comparison with the code:
the JSON-parse of the payload of the MOST RECENT submission event (last in
the append-only event order), or null when no submission event exists. -/
def specTaskResult {J : Type} (jsonParse : String → J)
    (events : List TaskEvent) : Option J :=
  match (events.filter (fun e => e.type = "submission")).getLast? with
  | none => none
  | some e => some (jsonParse (e.result.getD ""))

/-- A completed task whose single submission event carries the empty-string
payload. -/
def taskEmptySubmission : ManagerTaskRecord :=
  { state := { id := "t1", templateId := "tpl1", title := "T" }
    events := [⟨"created", none⟩, ⟨"offered", none⟩, ⟨"accepted", none⟩,
      ⟨"submission", some ""⟩, ⟨"completed", none⟩] }

/-- C3 counterexample: for a completed task whose submission event has the
empty-string payload, the route answers result null (the payload is falsy
in the JS conditional) although a most-recent submission event exists,
whose JSON-parse the claim requires in the entry. -/
theorem tasksRoute_empty_payload_counterexample :
    (tasksByTemplateRoute (fun s => s) [taskEmptySubmission] "tpl1").map
        (fun e => e.result) = [none] ∧
    specTaskResult (fun s => s) taskEmptySubmission.events = some "" := by
  constructor <;> rfl

/-- If a predicate holds for at most one element of a list, the first match
and the last match coincide. -/
theorem find_eq_filter_getLast {α : Type} (p : α → Bool) (l : List α)
    (h : (l.filter p).length ≤ 1) : l.find? p = (l.filter p).getLast? := by
  induction l with
  | nil => rfl
  | cons a l ih =>
    by_cases hp : p a
    · have hfil : l.filter p = [] := by
        rw [List.filter_cons_of_pos hp] at h
        simp only [List.length_cons, Nat.succ_le_succ_iff, Nat.le_zero] at h
        exact List.length_eq_zero.mp h
      rw [List.find?_cons_of_pos _ hp, List.filter_cons_of_pos hp, hfil]
      rfl
    · rw [List.find?_cons_of_neg _ hp, List.filter_cons_of_neg hp]
      rw [List.filter_cons_of_neg hp] at h
      exact ih h

/-- C3 (amended): for every completed task of the requested template whose
event log contains at most one submission event (the state machine appends
at most one), the route returns the entry `{taskId, templateId, title,
result}` where result is the JSON-parse of the submission event's payload
when that payload is a nonempty string, and null when no submission event
exists or its payload is absent or the empty string. -/
theorem tasksRoute_entry_result (J : Type) (jsonParse : String → J)
    (tasks : List ManagerTaskRecord) (tid : String)
    (t : ManagerTaskRecord) (hmem : t ∈ tasks)
    (htid : t.state.templateId = tid)
    (hone : (t.events.filter (fun e => e.type = "submission")).length ≤ 1) :
    (⟨t.state.id, t.state.templateId, t.state.title,
        taskEntryResult jsonParse t.events⟩ : TaskListEntry J)
      ∈ tasksByTemplateRoute jsonParse tasks tid ∧
    ((t.events.filter (fun e => e.type = "submission")).getLast? = none →
        taskEntryResult jsonParse t.events = none) ∧
    (∀ e, (t.events.filter (fun e => e.type = "submission")).getLast?
          = some e →
        (e.result = none → taskEntryResult jsonParse t.events = none) ∧
        (e.result = some "" → taskEntryResult jsonParse t.events = none) ∧
        (∀ r, e.result = some r → r ≠ "" →
            taskEntryResult jsonParse t.events = some (jsonParse r))) := by
  have hfind : t.events.find? (fun e => e.type = "submission")
      = (t.events.filter (fun e => e.type = "submission")).getLast? :=
    find_eq_filter_getLast _ _ hone
  refine ⟨?_, ?_, ?_⟩
  · unfold tasksByTemplateRoute
    refine List.mem_map.mpr ⟨t, List.mem_filter.mpr ⟨hmem, ?_⟩, rfl⟩
    simp [htid]
  · intro hnone
    unfold taskEntryResult
    rw [hfind, hnone]
  · intro e hlast
    refine ⟨?_, ?_, ?_⟩
    · intro hres
      unfold taskEntryResult
      rw [hfind, hlast]
      simp [hres]
    · intro hres
      unfold taskEntryResult
      rw [hfind, hlast]
      simp [hres]
    · intro r hres hne
      unfold taskEntryResult
      rw [hfind, hlast]
      simp [hres, hne]

/-- A completed task whose submission event carries the payload `42`. -/
def taskHappy : ManagerTaskRecord :=
  { state := { id := "t2", templateId := "tpl1", title := "Title" }
    events := [⟨"created", none⟩, ⟨"offered", none⟩, ⟨"accepted", none⟩,
      ⟨"submission", some "42"⟩, ⟨"completed", none⟩] }

/-- Witness for C3 (amended): the single-task store yields the entry with
the parsed payload. -/
theorem tasksRoute_entry_result_witness :
    (⟨"t2", "tpl1", "Title", some "42"⟩ : TaskListEntry String)
      ∈ tasksByTemplateRoute (fun s => s) [taskHappy] "tpl1" :=
  (tasksRoute_entry_result String (fun s => s) [taskHappy] "tpl1" taskHappy
      (List.mem_singleton.mpr rfl) rfl (by decide)).1

end EffectManager
